import Mathlib

/-!
Verification of the Creality LAN integration's websocket client and state
store (`custom_components/creality_lan/ws.py`, constants from `const.py`).

The Python code is shallowly embedded: JSON / Python values become the
inductive `PyVal`; dictionaries become association lists; the mutable
`CrealityWS.state` dictionary becomes the record `DeviceState`; the
in-place field writes of `CrealityWS._ingest` become a pure function from
the pre-state and the inbound message to the post-state, with its
exception-raising conversions — `int(r["printProgress"])`, and the bare
`int()` around `_num`'s result for `printLeftTime` / `printJobTime`,
which raises when `_num` returns a non-finite float — reflected in an
explicit `exn` component.  The asyncio loops (`_runner`, `_send_loop`,
`_recv_loop`, `_probe_cfs_support`, `_start_cfs_poller`) are embedded as
step functions over explicit event traces.
-/

/-- A Python float: an exact finite rational, an infinity, or a nan.
Finite values are exact rationals — the rounding of decimal literals to
binary doubles (and the overflow of out-of-range literals to infinity) is
outside the model. -/
inductive PyFloat where
  | finite (q : Rat)
  | inf (neg : Bool)
  | nan
deriving DecidableEq

/-- Negation of a Python float (for a leading `-` sign). -/
def negPyFloat : PyFloat → PyFloat
  | .finite q => .finite (-q)
  | .inf b => .inf (!b)
  | .nan => .nan

/-- The result of `_num`: Python `float(x)` returns a float (possibly
non-finite), the `int(x)` fallback returns an int, and the caller-supplied
default is returned as given. -/
inductive PyNum where
  | f (x : PyFloat)
  | i (n : Int)
deriving DecidableEq

/-- A Python/JSON value as it appears in decoded websocket messages
(`json.loads` also accepts the `Infinity`/`NaN` constants). -/
inductive PyVal where
  | vInt (n : Int)
  | vFloat (f : PyFloat)
  | vBool (b : Bool)
  | vStr (s : String)
  | vNull
  | vList (xs : List PyVal)
  | vDict (kvs : List (String × PyVal))

/-- A decoded inbound message body (a Python dict, keys unique). -/
abbrev Msg := List (String × PyVal)

/-- `d[k]` lookup in an association list standing for a Python dict. -/
def lookup (r : Msg) (k : String) : Option PyVal :=
  (r.find? (fun p => p.1 == k)).map Prod.snd

/-- `d[k] = v` on an association list: replace in place or append (Python
dict update semantics). -/
def dictSet (d : Msg) (k : String) (v : PyVal) : Msg :=
  match d with
  | [] => [(k, v)]
  | (k0, v0) :: rest => if k0 == k then (k, v) :: rest else (k0, v0) :: dictSet rest k v

/-- Strip leading and trailing spaces (Python's numeric constructors strip
surrounding whitespace before parsing). -/
def stripSpaces (cs : List Char) : List Char :=
  ((cs.dropWhile (fun c => c = ' ')).reverse.dropWhile (fun c => c = ' ')).reverse

def digitsToNat (cs : List Char) : Nat :=
  cs.foldl (fun a c => a * 10 + (c.toNat - 48)) 0

def allDigits (cs : List Char) : Bool :=
  cs.all (fun c => c.isDigit)

/-- Decimal integer literal as accepted by Python's `int(str)`:
optional sign, then digits only (so `int("3.5")` fails). -/
def parseIntLit (s : String) : Option Int :=
  let go : List Char → Option Int := fun cs =>
    if !cs.isEmpty && allDigits cs then some (digitsToNat cs : Int) else none
  match stripSpaces s.toList with
  | '+' :: rest => go rest
  | '-' :: rest => (go rest).map Neg.neg
  | cs => go cs

/-- Exponent suffix after the `e` of a float literal: optional sign and
digits. -/
def parseExp (cs : List Char) : Option Int :=
  match cs with
  | '+' :: rest => if !rest.isEmpty && allDigits rest then some (digitsToNat rest : Int) else none
  | '-' :: rest => if !rest.isEmpty && allDigits rest then some (-(digitsToNat rest : Int)) else none
  | rest => if !rest.isEmpty && allDigits rest then some (digitsToNat rest : Int) else none

/-- Scale a mantissa by a decimal exponent. -/
def applyExp (m : Rat) (e : Int) : Rat :=
  if 0 ≤ e then m * ((10 : Rat) ^ e.toNat) else m / ((10 : Rat) ^ (-e).toNat)

/-- Unsigned finite float literal (input already lower-cased):
`digits [. [digits]] [e [sign] digits]` or `. digits [e [sign] digits]`.
The value is kept as an exact rational; the rounding of decimal literals to
binary doubles, the overflow of out-of-range literals to infinity, and
digit-separating underscores are outside the model. -/
def parseUnsignedFinite (cs : List Char) : Option Rat :=
  match cs.span (fun c => c != 'e') with
  | (mant, expPart) =>
    let m? : Option Rat :=
      match mant.span (fun c => c.isDigit) with
      | (ip, []) => if ip.isEmpty then none else some (digitsToNat ip : Rat)
      | (ip, '.' :: fp) =>
        if !allDigits fp then none
        else if ip.isEmpty && fp.isEmpty then none
        else some ((digitsToNat ip : Rat) + (digitsToNat fp : Rat) / ((10 : Rat) ^ fp.length))
      | _ => none
    match m?, expPart with
    | some m, [] => some m
    | some m, _ :: ecs => (parseExp ecs).map (fun e => applyExp m e)
    | none, _ => none

/-- Unsigned float literal (input already lower-cased): `inf`, `infinity`,
`nan`, or a finite literal. -/
def parseUnsignedFloat (cs : List Char) : Option PyFloat :=
  if cs = ['i', 'n', 'f'] || cs = ['i', 'n', 'f', 'i', 'n', 'i', 't', 'y'] then
    some (.inf false)
  else if cs = ['n', 'a', 'n'] then some .nan
  else (parseUnsignedFinite cs).map .finite

/-- Float literal as accepted by Python's `float(str)`: case-insensitive,
optional sign, `inf` / `infinity` / `nan` and exponent forms included. -/
def parseFloatLit (s : String) : Option PyFloat :=
  match (stripSpaces s.toList).map Char.toLower with
  | '+' :: rest => parseUnsignedFloat rest
  | '-' :: rest => (parseUnsignedFloat rest).map negPyFloat
  | cs => parseUnsignedFloat cs

/-- Python `float(x)`: succeeds on ints, floats, bools and numeric strings;
raises (here: `none`) on everything else. -/
def pyFloatConv : PyVal → Option PyFloat
  | .vInt n => some (.finite (n : Rat))
  | .vFloat f => some f
  | .vBool b => some (.finite (bif b then 1 else 0))
  | .vStr s => parseFloatLit s
  | _ => none

/-- Truncation toward zero, as Python's `int(float)`. -/
def ratTrunc (q : Rat) : Int :=
  q.num.tdiv (q.den : Int)

/-- Python `int(x)`: succeeds on ints, floats (truncating), bools and
integer-literal strings; raises (here: `none`) on everything else. -/
def pyIntConv : PyVal → Option Int
  | .vInt n => some n
  | .vFloat (.finite q) => some (ratTrunc q)
  | .vFloat _ => none
  | .vBool b => some (bif b then 1 else 0)
  | .vStr s => parseIntLit s
  | _ => none

/-- `CrealityWS._num(x, default)`: `try: return float(x)` then
`try: return int(x)` then `return default` — total, `_num` itself never
raises; a non-finite float is returned, not caught. -/
def numConv (x : PyVal) (default : PyNum) : PyNum :=
  match pyFloatConv x with
  | some fl => .f fl
  | none =>
    match pyIntConv x with
    | some i => .i i
    | none => default

/-- Python `int()` applied to a `_num` result: ints pass through, finite
floats truncate toward zero, and `int(inf)` / `int(nan)` raise
(`OverflowError` / `ValueError`) — here `none`. -/
def pyIntOfNum : PyNum → Option Int
  | .i n => some n
  | .f (.finite q) => some (ratTrunc q)
  | .f _ => none

/-- Python `str(x)` (composite values get a placeholder rendering; the code
only ever applies `str` to the `printFileName` value, a string in practice). -/
def pyStr : PyVal → String
  | .vStr s => s
  | .vInt n => toString n
  | .vFloat (.finite q) => toString q
  | .vFloat (.inf b) => bif b then "-inf" else "inf"
  | .vFloat .nan => "nan"
  | .vBool b => bif b then "True" else "False"
  | .vNull => "None"
  | .vList _ => "[list]"
  | .vDict _ => "[dict]"

/-- Python `str.split("/")` at character level (`"".split("/") == [""]`). -/
def splitOnSlash : List Char → List (List Char)
  | [] => [[]]
  | c :: rest =>
    let r := splitOnSlash rest
    if c = '/' then [] :: r
    else
      match r with
      | [] => [[c]]
      | h :: t => (c :: h) :: t

/-- `str(x).split("/")[-1]` — keep only the basename. -/
def basename (s : String) : String :=
  String.mk ((splitOnSlash s.toList).getLastD [])

/-- One `{value, target, max}` temperature leaf of `state["temperature"]`;
each holds whatever `_num` returned — a float, possibly non-finite, or an
int. -/
structure TempEntry where
  value : PyNum
  target : PyNum
  max : PyNum

structure Temps where
  nozzle : TempEntry
  bed : TempEntry
  box : TempEntry

/-- `state["ctrol"]`: values are stored raw, exactly as they arrive. -/
structure Ctrol where
  curFeedratePct : PyVal
  fan : PyVal
  modelFanPct : PyVal
  auxiliaryFanPct : PyVal
  caseFanPct : PyVal
  lightSw : PyVal
  fanAuxiliary : PyVal
  fanCase : PyVal

/-- The `CrealityWS.state` dictionary as a typed record. -/
structure DeviceState where
  timeStamp : Int
  boxInfoTimeStamp : Int
  online : Bool
  data : Msg
  err : Msg
  temperature : Temps
  printProgress : Int
  printLeftTime : Int
  printJobTime : Int
  printFileName : String
  deviceState : PyVal
  state : PyVal
  ctrol : Ctrol
  previewimg : String
  boxsInfo : PyVal

/-- The defaults installed by `CrealityWS.__init__`. -/
def initState (host : String) : DeviceState :=
  { timeStamp := -1
    boxInfoTimeStamp := -1
    online := false
    data := []
    err := [("errcode", .vInt 0), ("key", .vInt 0), ("errLevel", .vInt 0)]
    temperature :=
      { nozzle := { value := .f (.finite 0), target := .f (.finite 0), max := .f (.finite 350) }
        bed := { value := .f (.finite 0), target := .f (.finite 0), max := .f (.finite 120) }
        box := { value := .f (.finite 0), target := .f (.finite 0), max := .f (.finite 60) } }
    printProgress := 0
    printLeftTime := 0
    printJobTime := 0
    printFileName := ""
    deviceState := .vNull
    state := .vNull
    ctrol :=
      { curFeedratePct := .vInt 100
        fan := .vInt 0
        modelFanPct := .vInt 0
        auxiliaryFanPct := .vInt 0
        caseFanPct := .vInt 0
        lightSw := .vInt 0
        fanAuxiliary := .vInt 0
        fanCase := .vInt 0 }
    previewimg := "http://" ++ host ++ ":80/downloads/original/current_print_image.png"
    boxsInfo := .vNull }

/-- The writes `_ingest` performs before the `printProgress` conversion:
`s["timeStamp"] = int(time.time()*1000)` and, when present, the wholesale
`boxsInfo` copy together with `boxInfoTimeStamp`. -/
def ingestHead (st : DeviceState) (now : Int) (r : Msg) : DeviceState :=
  { st with
    timeStamp := now
    boxsInfo := (lookup r "boxsInfo").getD st.boxsInfo
    boxInfoTimeStamp :=
      match lookup r "boxsInfo" with
      | some _ => now
      | none => st.boxInfoTimeStamp }

/-- `cfs_supported` after the `boxsInfo` block of `_ingest`
(`None` flips to `True` when a `boxsInfo` frame arrives). -/
def cfsAfter (cfs : Option Bool) (r : Msg) : Option Bool :=
  match lookup r "boxsInfo", cfs with
  | some _, none => some true
  | _, c => c

/-- Whether the `boxsInfo` block fires `create_task(self._start_cfs_poller())`
(only on the `None → True` flip). -/
def pollerKick (cfs : Option Bool) (r : Msg) : Bool :=
  match lookup r "boxsInfo", cfs with
  | some _, none => true
  | _, _ => false

/-- The `printProgress` write, `s["printProgress"] = int(r["printProgress"])`
(total part; its failure is `ppFail`). -/
def applyPP (s : DeviceState) (r : Msg) : DeviceState :=
  match lookup r "printProgress" with
  | some v =>
    match pyIntConv v with
    | some n => { s with printProgress := n }
    | none => s
  | none => s

/-- Whether `int(r["printProgress"])` raises. -/
def ppFail (r : Msg) : Bool :=
  match lookup r "printProgress" with
  | some v => (pyIntConv v).isNone
  | none => false

/-- The `printLeftTime` write,
`s["printLeftTime"] = int(self._num(r["printLeftTime"], 0))` (total part;
its failure is `pltFail`). -/
def applyPLT (s : DeviceState) (r : Msg) : DeviceState :=
  match lookup r "printLeftTime" with
  | some v =>
    match pyIntOfNum (numConv v (PyNum.i 0)) with
    | some n => { s with printLeftTime := n }
    | none => s
  | none => s

/-- Whether `int(self._num(r["printLeftTime"], 0))` raises — it does when
`_num` returns a non-finite float. -/
def pltFail (r : Msg) : Bool :=
  match lookup r "printLeftTime" with
  | some v => (pyIntOfNum (numConv v (PyNum.i 0))).isNone
  | none => false

/-- The `printJobTime` write,
`s["printJobTime"] = int(self._num(r["printJobTime"], 0))` (total part;
its failure is `pjtFail`). -/
def applyPJT (s : DeviceState) (r : Msg) : DeviceState :=
  match lookup r "printJobTime" with
  | some v =>
    match pyIntOfNum (numConv v (PyNum.i 0)) with
    | some n => { s with printJobTime := n }
    | none => s
  | none => s

/-- Whether `int(self._num(r["printJobTime"], 0))` raises. -/
def pjtFail (r : Msg) : Bool :=
  match lookup r "printJobTime" with
  | some v => (pyIntOfNum (numConv v (PyNum.i 0))).isNone
  | none => false

/-- The field writes of `_ingest` after the `printJobTime` line — none of
which can raise — each one guarded by presence of its message key, nested
leaves written one by one (`err` alone is replaced wholesale when the value
is a dict); finally every message item is copied into `data`. -/
def restIngest (s : DeviceState) (r : Msg) : DeviceState :=
  { s with
    printFileName :=
      match lookup r "printFileName" with
      | some v => basename (pyStr v)
      | none => s.printFileName
    deviceState := (lookup r "deviceState").getD s.deviceState
    state := (lookup r "state").getD s.state
    temperature :=
      { nozzle :=
          { value :=
              match lookup r "nozzleTemp" with
              | some v => numConv v (.f (.finite 0))
              | none => s.temperature.nozzle.value
            target :=
              match lookup r "targetNozzleTemp" with
              | some v => numConv v (.f (.finite 0))
              | none => s.temperature.nozzle.target
            max :=
              match lookup r "maxNozzleTemp" with
              | some v => numConv v (.f (.finite 350))
              | none => s.temperature.nozzle.max }
        bed :=
          { value :=
              match lookup r "bedTemp0" with
              | some v => numConv v (.f (.finite 0))
              | none => s.temperature.bed.value
            target :=
              match lookup r "targetBedTemp0" with
              | some v => numConv v (.f (.finite 0))
              | none => s.temperature.bed.target
            max :=
              match lookup r "maxBedTemp" with
              | some v => numConv v (.f (.finite 120))
              | none => s.temperature.bed.max }
        box :=
          { value :=
              match lookup r "boxTemp" with
              | some v => numConv v (.f (.finite 0))
              | none => s.temperature.box.value
            target := s.temperature.box.target
            max := s.temperature.box.max } }
    ctrol :=
      { curFeedratePct := (lookup r "curFeedratePct").getD s.ctrol.curFeedratePct
        fan := (lookup r "fan").getD s.ctrol.fan
        modelFanPct := (lookup r "modelFanPct").getD s.ctrol.modelFanPct
        auxiliaryFanPct := (lookup r "auxiliaryFanPct").getD s.ctrol.auxiliaryFanPct
        caseFanPct := (lookup r "caseFanPct").getD s.ctrol.caseFanPct
        lightSw := (lookup r "lightSw").getD s.ctrol.lightSw
        fanAuxiliary := (lookup r "fanAuxiliary").getD s.ctrol.fanAuxiliary
        fanCase := (lookup r "fanCase").getD s.ctrol.fanCase }
    err :=
      match lookup r "err" with
      | some (.vDict d) => d
      | _ => s.err
    data := r.foldl (fun acc kv => dictSet acc kv.1 kv.2) s.data }

/-- Result of one `_ingest` call: post-state, post-`cfs_supported`, whether
the CFS poller task was spawned, and whether an exception escaped (the
raise points are the three conversions `ppFail` / `pltFail` / `pjtFail`). -/
structure IngestOut where
  st : DeviceState
  cfs : Option Bool
  startPoller : Bool
  exn : Option Unit

/-- `CrealityWS._ingest(r)` as a pure step: sequential in-place writes
become function composition, in source order — head writes, then the
`printProgress`, `printLeftTime` and `printJobTime` conversions (each of
which can raise: a failure abandons everything that follows while all
earlier writes persist), then the remaining, raise-free writes. -/
def ingest (st : DeviceState) (cfs : Option Bool) (r : Msg) (now : Int) : IngestOut :=
  if ppFail r then
    ⟨ingestHead st now r, cfsAfter cfs r, pollerKick cfs r, some ()⟩
  else if pltFail r then
    ⟨applyPP (ingestHead st now r) r, cfsAfter cfs r, pollerKick cfs r, some ()⟩
  else if pjtFail r then
    ⟨applyPLT (applyPP (ingestHead st now r) r) r, cfsAfter cfs r, pollerKick cfs r, some ()⟩
  else
    ⟨restIngest (applyPJT (applyPLT (applyPP (ingestHead st now r) r) r) r) r,
      cfsAfter cfs r, pollerKick cfs r, none⟩

/-- The pair of mutable attributes the receive loop threads through
`_ingest`: `self.state` and `self.cfs_supported`. -/
structure LoopState where
  st : DeviceState
  cfs : Option Bool

/-- The listener loop `for cb in self._listeners: cb()` inside the `try`
of `_recv_loop`.  A listener is represented by whether its callback raises.
Returns the indices invoked (in registration order, starting at `i`) and
whether an exception escaped the loop: a raising listener is the last one
to run, because the exception propagates to the enclosing handler. -/
def runCallbacks : Nat → List Bool → List Nat × Bool
  | _, [] => ([], false)
  | i, raises :: rest =>
    if raises then ([i], true)
    else
      let r := runCallbacks (i + 1) rest
      (i :: r.1, r.2)

/-- One TEXT frame handled by `_recv_loop`: `none` stands for a body that
`json.loads` rejects (dropped, logged); otherwise `_ingest` runs and, when
it returns normally, the listener loop runs.  Exceptions from `_ingest` or
from a listener are absorbed by the same `except` clause, so in every case
the loop proceeds to the next frame.  Returns the new state and the indices
of the listeners invoked for this frame. -/
def recvStep (lsn : List Bool) (c : LoopState) (m : Option Msg) (now : Int) :
    LoopState × List Nat :=
  match m with
  | none => (c, [])
  | some r =>
    let o := ingest c.st c.cfs r now
    match o.exn with
    | some _ => (⟨o.st, o.cfs⟩, [])
    | none => (⟨o.st, o.cfs⟩, (runCallbacks 0 lsn).1)

/-- `_recv_loop` over a finite inbound trace: fold of `recvStep`,
collecting per-frame listener invocations. -/
def recvAll (lsn : List Bool) (c : LoopState) (msgs : List (Option Msg)) (now : Int) :
    LoopState × List (List Nat) :=
  match msgs with
  | [] => (c, [])
  | m :: rest =>
    let s := recvStep lsn c m now
    let r := recvAll lsn s.1 rest now
    (r.1, s.2 :: r.2)

/-- A sequence of `_ingest` calls (the state-store view of a stream of
partial merges). -/
def ingestSeq (c : LoopState) (msgs : List Msg) (now : Int) : LoopState :=
  msgs.foldl (fun acc r => let o := ingest acc.st acc.cfs r now; ⟨o.st, o.cfs⟩) c

/-- `RECONNECT_BACKOFF` from `const.py`. -/
def RECONNECT_BACKOFF : List Nat := [1, 2, 5, 10, 20, 30]

/-- `next(backoffs, RECONNECT_BACKOFF[-1])` when the iterator has already
yielded `pos` elements. -/
def backoffAt (pos : Nat) : Nat :=
  RECONNECT_BACKOFF.getD pos (RECONNECT_BACKOFF.getLastD 0)

/-- One observable outcome of a `_runner` loop iteration: the connection
attempt (or the connected session) ends in an exception, or a connected
session ends cleanly. -/
inductive REv where
  | fail
  | session

/-- The delays `_runner` sleeps, starting with the backoff iterator at
`pos`: an exception sleeps `next(backoffs, 30)` and advances the iterator;
a clean session resets the iterator (`else: backoffs = iter(...)`) and
sleeps nothing. -/
def runnerTrace : Nat → List REv → List Nat
  | _, [] => []
  | pos, REv.fail :: evs => backoffAt pos :: runnerTrace (pos + 1) evs
  | _, REv.session :: evs => runnerTrace 0 evs

/-- Lines 145-150 of `_runner` on entering a connection: `online = True`
and `cfs_supported = None` (listener notification follows). -/
def onConnected (c : LoopState) : LoopState :=
  ⟨{ c.st with online := true }, none⟩

/-- `self.cfs_supported` is visible as `True` at poll instant `t` iff the
`boxsInfo` frame was ingested at some instant `≤ t`. -/
def seenAt (arrival : Option Nat) (t : Nat) : Bool :=
  match arrival with
  | some s => decide (s ≤ t)
  | none => false

/-- The inner `for _ in range(10)` of `_probe_cfs_support`: checks at
instants `t, t+1, …`, breaking at the first observation, else running its
ten one-second sleeps; returns the instant at which it exits. -/
def innerWait (arrival : Option Nat) : Nat → Nat → Nat
  | t, 0 => t
  | t, fuel + 1 => if seenAt arrival t then t else innerWait arrival (t + 1) fuel

/-- The outer `while self.cfs_supported is None and attempts < max_attempts`
loop: returns the number of `request_boxs_info` requests issued and the
instant the loop exits. -/
def probeAttempts (arrival : Option Nat) : Nat → Nat → Nat × Nat
  | 0, t => (0, t)
  | fuel + 1, t =>
    if seenAt arrival t then (0, t)
    else
      let t2 := innerWait arrival t 10
      if seenAt arrival t2 then (1, t2)
      else
        let r := probeAttempts arrival fuel t2
        (r.1 + 1, r.2)

structure ProbeResult where
  requests : Nat
  supported : Option Bool
  pollerStarted : Bool
deriving DecidableEq

/-- `_probe_cfs_support` for a connection on which the `boxsInfo` payload is
ingested at instant `arrival` (if ever): up to 5 attempts, each followed by
up to ten 1-second polls; if nothing was seen the probe sets
`cfs_supported = False`; the poller task is spawned by `_ingest` exactly on
the `None → True` flip, i.e. iff the payload was seen while probing. -/
def probeSim (arrival : Option Nat) : ProbeResult :=
  let pr := probeAttempts arrival 5 0
  let saw := seenAt arrival pr.2
  { requests := pr.1
    supported := if saw then some true else some false
    pollerStarted := saw }

/-- An outbound `CommandEnvelope`. -/
structure Envelope where
  method : String
  params : Msg

/-- `asyncio.Queue.put_nowait` on the unbounded `_out_queue`: appends, and
(being unbounded) never raises `QueueFull`. -/
def putNowait (q : List Envelope) (e : Envelope) : Except Unit (List Envelope) :=
  Except.ok (q ++ [e])

/-- `CrealityWS.send_cmd(params)`: wrap in a `set` envelope, enqueue,
absorb any enqueue error (logged only). -/
def send_cmd (q : List Envelope) (params : Msg) : List Envelope :=
  match putNowait q { method := "set", params := params } with
  | Except.ok q2 => q2
  | Except.error _ => q

/-- `CrealityWS.request_boxs_info()`: enqueue `{"method":"get","params":{"boxsInfo":1}}`. -/
def request_boxs_info (q : List Envelope) : List Envelope :=
  match putNowait q { method := "get", params := [("boxsInfo", PyVal.vInt 1)] } with
  | Except.ok q2 => q2
  | Except.error _ => q

/-- `_start_cfs_poller`'s inner loop, one tick: sleep `20`, then re-request
`boxsInfo`. -/
def cfsPollerTick (q : List Envelope) : Nat × List Envelope :=
  (20, request_boxs_info q)

/-- `_send_loop` draining a queue with contents `q`: before each pop the
loop re-checks `ws.closed` (`closed i` at the `i`-th iteration); a popped
envelope is sent inside `try/except` — `sendOk i` records whether
`ws.send_str` succeeded — and the loop continues either way, never
re-queueing.  Returns the attempted transmissions in order, paired with
their outcome, and the envelopes left unpopped. -/
def sendLoop (closed sendOk : Nat → Bool) : Nat → List Envelope →
    List (Envelope × Bool) × List Envelope
  | _, [] => ([], [])
  | i, e :: rest =>
    if closed i then ([], e :: rest)
    else
      let r := sendLoop closed sendOk (i + 1) rest
      ((e, sendOk i) :: r.1, r.2)

/-- The background tasks of one `CrealityWS` instance (running or not):
`receiver`, `sender`, `_cfs_probe`, `_cfs_poller`, and `_task` (the
`_runner`). -/
structure Tasks where
  receiver : Bool
  sender : Bool
  probe : Bool
  poller : Bool
  runner : Bool
deriving DecidableEq

/-- Lines 161-164 of `_runner`: when one of the per-epoch tasks ends, the
others in `pending ⊆ {receiver, sender, self._cfs_probe}` are cancelled;
`self._cfs_poller` is not in that set. -/
def epochTeardown (t : Tasks) : Tasks :=
  { t with receiver := false, sender := false, probe := false }

/-- `async_stop`: cancels `_cfs_probe`, `_cfs_poller` and `_task`, then
closes the websocket and the session. -/
def asyncStop (t : Tasks) : Tasks :=
  { t with probe := false, poller := false, runner := false }

/-- `_start_cfs_poller`: returns immediately if a poller task exists and is
not done, else spawns the 20-second loop. -/
def startCfsPoller (t : Tasks) : Tasks :=
  if t.poller then t else { t with poller := true }

/-- Python truthiness, as used by `self.mac or self._host`. -/
def pyTruthy : PyVal → Bool
  | .vInt n => n != 0
  | .vFloat (.finite q) => q != 0
  | .vFloat _ => true
  | .vBool b => b
  | .vStr s => !s.isEmpty
  | .vNull => false
  | .vList xs => !xs.isEmpty
  | .vDict kvs => !kvs.isEmpty

/-- The identity attributes of `CrealityWS`. -/
structure Identity where
  host : String
  model : Option PyVal
  mac : Option PyVal
  unique_id : PyVal

/-- `__init__`: `self.unique_id: str = host`, `model`/`mac` unset. -/
def initIdentity (host : String) : Identity :=
  { host := host, model := none, mac := none, unique_id := PyVal.vStr host }

/-- The possible outcomes of the `GET /info` exchange in `async_fetch_info`. -/
inductive InfoResult where
  | ok (body : Msg)
  | httpError (status : Nat)
  | exn
  | noSession

/-- `async_fetch_info`: on HTTP 200, `model = data.get("model")`,
`mac = data.get("mac")`, `unique_id = self.mac or self._host`; a non-200
response only logs; an exception logs and assigns `unique_id = self._host`;
without a session the method returns at once. -/
def fetchInfo (st : Identity) (res : InfoResult) : Identity :=
  match res with
  | .noSession => st
  | .httpError _ => st
  | .exn => { st with unique_id := PyVal.vStr st.host }
  | .ok body =>
    let mc := lookup body "mac"
    { st with
      model := lookup body "model"
      mac := mc
      unique_id :=
        match mc with
        | some v => if pyTruthy v then v else PyVal.vStr st.host
        | none => PyVal.vStr st.host }

theorem lookup_cons (p : String × PyVal) (rest : Msg) (k : String) :
    lookup (p :: rest) k = if p.1 == k then some p.2 else lookup rest k := by
  by_cases h : p.1 == k <;> simp [lookup, List.find?, h]

theorem lookup_dictSet_of_ne (k k2 : String) (v : PyVal) (h : (k == k2) = false) :
    ∀ d : Msg, lookup (dictSet d k v) k2 = lookup d k2 := by
  intro d
  induction d with
  | nil => simp [dictSet, lookup_cons, h]
  | cons p rest ih =>
    simp only [dictSet]
    split
    · rename_i hp
      rw [lookup_cons, lookup_cons]
      have hpk : p.1 = k := by simpa using hp
      simp [h, hpk]
    · rw [lookup_cons, lookup_cons, ih]

theorem lookup_foldl_dictSet (k : String) :
    ∀ (r : Msg), lookup r k = none →
      ∀ d : Msg, lookup (r.foldl (fun acc kv => dictSet acc kv.1 kv.2) d) k = lookup d k := by
  intro r
  induction r with
  | nil => intro _ d; rfl
  | cons p rest ih =>
    intro h d
    rw [lookup_cons] at h
    by_cases hp : (p.1 == k) = true
    · simp [hp] at h
    · have hp2 : (p.1 == k) = false := by simpa using hp
      rw [hp2] at h
      simp only [if_false, Bool.false_eq_true] at h
      rw [List.foldl_cons, ih (by simpa using h) (dictSet d p.1 p.2),
        lookup_dictSet_of_ne p.1 k p.2 hp2]


/-! Projection lemmas: each of the three conversion writes touches exactly
one field. -/

@[simp] theorem applyPP_timeStamp (s : DeviceState) (r : Msg) :
    (applyPP s r).timeStamp = s.timeStamp := by
  unfold applyPP
  repeat' split
  all_goals rfl

@[simp] theorem applyPP_boxInfoTimeStamp (s : DeviceState) (r : Msg) :
    (applyPP s r).boxInfoTimeStamp = s.boxInfoTimeStamp := by
  unfold applyPP
  repeat' split
  all_goals rfl

@[simp] theorem applyPP_online (s : DeviceState) (r : Msg) :
    (applyPP s r).online = s.online := by
  unfold applyPP
  repeat' split
  all_goals rfl

@[simp] theorem applyPP_data (s : DeviceState) (r : Msg) :
    (applyPP s r).data = s.data := by
  unfold applyPP
  repeat' split
  all_goals rfl

@[simp] theorem applyPP_err (s : DeviceState) (r : Msg) :
    (applyPP s r).err = s.err := by
  unfold applyPP
  repeat' split
  all_goals rfl

@[simp] theorem applyPP_temperature (s : DeviceState) (r : Msg) :
    (applyPP s r).temperature = s.temperature := by
  unfold applyPP
  repeat' split
  all_goals rfl

@[simp] theorem applyPP_printLeftTime (s : DeviceState) (r : Msg) :
    (applyPP s r).printLeftTime = s.printLeftTime := by
  unfold applyPP
  repeat' split
  all_goals rfl

@[simp] theorem applyPP_printJobTime (s : DeviceState) (r : Msg) :
    (applyPP s r).printJobTime = s.printJobTime := by
  unfold applyPP
  repeat' split
  all_goals rfl

@[simp] theorem applyPP_printFileName (s : DeviceState) (r : Msg) :
    (applyPP s r).printFileName = s.printFileName := by
  unfold applyPP
  repeat' split
  all_goals rfl

@[simp] theorem applyPP_deviceState (s : DeviceState) (r : Msg) :
    (applyPP s r).deviceState = s.deviceState := by
  unfold applyPP
  repeat' split
  all_goals rfl

@[simp] theorem applyPP_state (s : DeviceState) (r : Msg) :
    (applyPP s r).state = s.state := by
  unfold applyPP
  repeat' split
  all_goals rfl

@[simp] theorem applyPP_ctrol (s : DeviceState) (r : Msg) :
    (applyPP s r).ctrol = s.ctrol := by
  unfold applyPP
  repeat' split
  all_goals rfl

@[simp] theorem applyPP_previewimg (s : DeviceState) (r : Msg) :
    (applyPP s r).previewimg = s.previewimg := by
  unfold applyPP
  repeat' split
  all_goals rfl

@[simp] theorem applyPP_boxsInfo (s : DeviceState) (r : Msg) :
    (applyPP s r).boxsInfo = s.boxsInfo := by
  unfold applyPP
  repeat' split
  all_goals rfl

theorem applyPP_absent (s : DeviceState) (r : Msg) (h : lookup r "printProgress" = none) :
    applyPP s r = s := by
  simp [applyPP, h]

@[simp] theorem applyPLT_timeStamp (s : DeviceState) (r : Msg) :
    (applyPLT s r).timeStamp = s.timeStamp := by
  unfold applyPLT
  repeat' split
  all_goals rfl

@[simp] theorem applyPLT_boxInfoTimeStamp (s : DeviceState) (r : Msg) :
    (applyPLT s r).boxInfoTimeStamp = s.boxInfoTimeStamp := by
  unfold applyPLT
  repeat' split
  all_goals rfl

@[simp] theorem applyPLT_online (s : DeviceState) (r : Msg) :
    (applyPLT s r).online = s.online := by
  unfold applyPLT
  repeat' split
  all_goals rfl

@[simp] theorem applyPLT_data (s : DeviceState) (r : Msg) :
    (applyPLT s r).data = s.data := by
  unfold applyPLT
  repeat' split
  all_goals rfl

@[simp] theorem applyPLT_err (s : DeviceState) (r : Msg) :
    (applyPLT s r).err = s.err := by
  unfold applyPLT
  repeat' split
  all_goals rfl

@[simp] theorem applyPLT_temperature (s : DeviceState) (r : Msg) :
    (applyPLT s r).temperature = s.temperature := by
  unfold applyPLT
  repeat' split
  all_goals rfl

@[simp] theorem applyPLT_printProgress (s : DeviceState) (r : Msg) :
    (applyPLT s r).printProgress = s.printProgress := by
  unfold applyPLT
  repeat' split
  all_goals rfl

@[simp] theorem applyPLT_printJobTime (s : DeviceState) (r : Msg) :
    (applyPLT s r).printJobTime = s.printJobTime := by
  unfold applyPLT
  repeat' split
  all_goals rfl

@[simp] theorem applyPLT_printFileName (s : DeviceState) (r : Msg) :
    (applyPLT s r).printFileName = s.printFileName := by
  unfold applyPLT
  repeat' split
  all_goals rfl

@[simp] theorem applyPLT_deviceState (s : DeviceState) (r : Msg) :
    (applyPLT s r).deviceState = s.deviceState := by
  unfold applyPLT
  repeat' split
  all_goals rfl

@[simp] theorem applyPLT_state (s : DeviceState) (r : Msg) :
    (applyPLT s r).state = s.state := by
  unfold applyPLT
  repeat' split
  all_goals rfl

@[simp] theorem applyPLT_ctrol (s : DeviceState) (r : Msg) :
    (applyPLT s r).ctrol = s.ctrol := by
  unfold applyPLT
  repeat' split
  all_goals rfl

@[simp] theorem applyPLT_previewimg (s : DeviceState) (r : Msg) :
    (applyPLT s r).previewimg = s.previewimg := by
  unfold applyPLT
  repeat' split
  all_goals rfl

@[simp] theorem applyPLT_boxsInfo (s : DeviceState) (r : Msg) :
    (applyPLT s r).boxsInfo = s.boxsInfo := by
  unfold applyPLT
  repeat' split
  all_goals rfl

theorem applyPLT_absent (s : DeviceState) (r : Msg) (h : lookup r "printLeftTime" = none) :
    applyPLT s r = s := by
  simp [applyPLT, h]

@[simp] theorem applyPJT_timeStamp (s : DeviceState) (r : Msg) :
    (applyPJT s r).timeStamp = s.timeStamp := by
  unfold applyPJT
  repeat' split
  all_goals rfl

@[simp] theorem applyPJT_boxInfoTimeStamp (s : DeviceState) (r : Msg) :
    (applyPJT s r).boxInfoTimeStamp = s.boxInfoTimeStamp := by
  unfold applyPJT
  repeat' split
  all_goals rfl

@[simp] theorem applyPJT_online (s : DeviceState) (r : Msg) :
    (applyPJT s r).online = s.online := by
  unfold applyPJT
  repeat' split
  all_goals rfl

@[simp] theorem applyPJT_data (s : DeviceState) (r : Msg) :
    (applyPJT s r).data = s.data := by
  unfold applyPJT
  repeat' split
  all_goals rfl

@[simp] theorem applyPJT_err (s : DeviceState) (r : Msg) :
    (applyPJT s r).err = s.err := by
  unfold applyPJT
  repeat' split
  all_goals rfl

@[simp] theorem applyPJT_temperature (s : DeviceState) (r : Msg) :
    (applyPJT s r).temperature = s.temperature := by
  unfold applyPJT
  repeat' split
  all_goals rfl

@[simp] theorem applyPJT_printProgress (s : DeviceState) (r : Msg) :
    (applyPJT s r).printProgress = s.printProgress := by
  unfold applyPJT
  repeat' split
  all_goals rfl

@[simp] theorem applyPJT_printLeftTime (s : DeviceState) (r : Msg) :
    (applyPJT s r).printLeftTime = s.printLeftTime := by
  unfold applyPJT
  repeat' split
  all_goals rfl

@[simp] theorem applyPJT_printFileName (s : DeviceState) (r : Msg) :
    (applyPJT s r).printFileName = s.printFileName := by
  unfold applyPJT
  repeat' split
  all_goals rfl

@[simp] theorem applyPJT_deviceState (s : DeviceState) (r : Msg) :
    (applyPJT s r).deviceState = s.deviceState := by
  unfold applyPJT
  repeat' split
  all_goals rfl

@[simp] theorem applyPJT_state (s : DeviceState) (r : Msg) :
    (applyPJT s r).state = s.state := by
  unfold applyPJT
  repeat' split
  all_goals rfl

@[simp] theorem applyPJT_ctrol (s : DeviceState) (r : Msg) :
    (applyPJT s r).ctrol = s.ctrol := by
  unfold applyPJT
  repeat' split
  all_goals rfl

@[simp] theorem applyPJT_previewimg (s : DeviceState) (r : Msg) :
    (applyPJT s r).previewimg = s.previewimg := by
  unfold applyPJT
  repeat' split
  all_goals rfl

@[simp] theorem applyPJT_boxsInfo (s : DeviceState) (r : Msg) :
    (applyPJT s r).boxsInfo = s.boxsInfo := by
  unfold applyPJT
  repeat' split
  all_goals rfl

theorem applyPJT_absent (s : DeviceState) (r : Msg) (h : lookup r "printJobTime" = none) :
    applyPJT s r = s := by
  simp [applyPJT, h]

/-- C6: starting from a fresh backoff iterator, the delays `_runner` sleeps
over consecutive failed attempts are exactly 1, 2, 5, 10, 20, 30 and then
30 repeats forever (`next(backoffs, RECONNECT_BACKOFF[-1])`); a connected
session that ends resets the iterator, so the delays after it restart at 1. -/
theorem reconnect_backoff_schedule :
    runnerTrace 0 (List.replicate 8 REv.fail) = [1, 2, 5, 10, 20, 30, 30, 30]
    ∧ (∀ i : Nat, backoffAt (6 + i) = 30)
    ∧ runnerTrace 0
        [REv.fail, REv.fail, REv.fail, REv.fail, REv.fail, REv.fail, REv.fail,
          REv.session, REv.fail, REv.fail, REv.fail]
      = [1, 2, 5, 10, 20, 30, 30, 1, 2, 5] := by
  refine ⟨rfl, ?_, rfl⟩
  intro i
  have h : (RECONNECT_BACKOFF).length ≤ 6 + i := by simp [RECONNECT_BACKOFF]
  show RECONNECT_BACKOFF.getD (6 + i) (RECONNECT_BACKOFF.getLastD 0) = 30
  rw [List.getD_eq_default _ _ h]
  rfl

/-- C8: `send_cmd` appends exactly one `set` envelope to the unbounded
queue and returns normally on every input; the drain loop pops envelopes
strictly in FIFO order — the attempted transmissions followed by the
still-queued remainder always equal the original queue, for every pattern
of socket closure and send failure — and while the socket stays open every
envelope is attempted exactly once, in order, independent of which of the
transmissions fail. -/
theorem command_queue_fifo :
    (∀ (q : List Envelope) (p : Msg),
        send_cmd q p = q ++ [{ method := "set", params := p }])
    ∧ (∀ (closed sendOk : Nat → Bool) (i : Nat) (q : List Envelope),
        ((sendLoop closed sendOk i q).1.map Prod.fst) ++ (sendLoop closed sendOk i q).2 = q)
    ∧ (∀ (sendOk : Nat → Bool) (i : Nat) (q : List Envelope),
        (sendLoop (fun _ => false) sendOk i q).1.map Prod.fst = q
          ∧ (sendLoop (fun _ => false) sendOk i q).2 = []) := by
  refine ⟨fun q p => rfl, ?_, ?_⟩
  · intro closed sendOk i q
    induction q generalizing i with
    | nil => simp [sendLoop]
    | cons e rest ih =>
      simp only [sendLoop]
      split
      · simp
      · simpa using ih (i + 1)
  · intro sendOk i q
    induction q generalizing i with
    | nil => simp [sendLoop]
    | cons e rest ih =>
      simp only [sendLoop, Bool.false_eq_true, if_false]
      exact ⟨by simpa using (ih (i + 1)).1, (ih (i + 1)).2⟩

/-- C9 counterexample: with all five background tasks running, the
per-epoch teardown in `_runner` (which cancels only the `pending` set
`{receiver, sender, _cfs_probe}`) leaves the CFS poller of the prior epoch
running after the old connection's teardown. -/
theorem poller_survives_epoch_teardown :
    (epochTeardown
        { receiver := true, sender := true, probe := true,
          poller := true, runner := true }).poller = true := rfl

/-- C9 amended: the per-epoch teardown cancels receiver, sender and probe
but never touches the poller, which therefore survives reconnects; no
duplicate poller can appear because `_start_cfs_poller` is idempotent while
one runs; only `async_stop` cancels the poller, and after it returns the
probe, the poller and the runner are no longer running. -/
theorem poller_lifecycle_amended :
    (∀ t : Tasks,
        (epochTeardown t).receiver = false ∧ (epochTeardown t).sender = false
          ∧ (epochTeardown t).probe = false ∧ (epochTeardown t).poller = t.poller
          ∧ (epochTeardown t).runner = t.runner)
    ∧ (∀ t : Tasks, startCfsPoller (startCfsPoller t) = startCfsPoller t)
    ∧ (∀ t : Tasks,
        (asyncStop t).probe = false ∧ (asyncStop t).poller = false
          ∧ (asyncStop t).runner = false) := by
  refine ⟨fun t => ⟨rfl, rfl, rfl, rfl, rfl⟩, fun t => ?_, fun t => ⟨rfl, rfl, rfl⟩⟩
  by_cases h : t.poller <;> simp [startCfsPoller, h]

/-- C10 counterexample: an HTTP 200 reply whose `mac` is the empty string —
a non-null value — still makes `unique_id` fall back to the configured
host, because the code uses Python truthiness (`self.mac or self._host`),
not a null test. -/
theorem unique_id_empty_mac :
    (fetchInfo (initIdentity "192.168.1.50")
        (InfoResult.ok [("mac", PyVal.vStr "")])).mac = some (PyVal.vStr "")
    ∧ (fetchInfo (initIdentity "192.168.1.50")
        (InfoResult.ok [("mac", PyVal.vStr "")])).unique_id = PyVal.vStr "192.168.1.50"
    ∧ PyVal.vStr "192.168.1.50" ≠ PyVal.vStr "" := by
  refine ⟨rfl, rfl, fun h => ?_⟩
  injection h with h2
  exact absurd h2 (by decide)

/-- C10 amended: `unique_id` starts as the configured host; after the
single info fetch it equals the fetched `mac` value when that value is
truthy (non-null, non-empty, non-zero), and the configured host on every
other outcome — falsy mac, missing mac, exception, missing session, or a
non-200 status (which leaves the attribute unchanged, i.e. still the
host). -/
theorem unique_id_fallback_amended (host : String) (res : InfoResult) :
    (initIdentity host).unique_id = PyVal.vStr host
    ∧ (fetchInfo (initIdentity host) res).unique_id =
        (match res with
          | InfoResult.ok body =>
            (match lookup body "mac" with
              | some v => if pyTruthy v then v else PyVal.vStr host
              | none => PyVal.vStr host)
          | _ => PyVal.vStr host) := by
  refine ⟨rfl, ?_⟩
  cases res <;> rfl

theorem runCallbacks_fst (i : Nat) (lsn : List Bool) :
    (runCallbacks i lsn).1 =
      List.range' i (min lsn.length ((lsn.takeWhile (fun b => !b)).length + 1)) := by
  induction lsn generalizing i with
  | nil => simp [runCallbacks]
  | cons b rest ih =>
    cases b with
    | true =>
      have hmin : min (rest.length + 1) 1 = 1 := by omega
      simp [runCallbacks, List.takeWhile_cons, hmin, List.range']
    | false =>
      have hmin : min (rest.length + 1)
          (((rest.takeWhile (fun b => !b)).length + 1) + 1)
          = (min rest.length ((rest.takeWhile (fun b => !b)).length + 1)) + 1 :=
        Nat.succ_min_succ _ _
      simp only [runCallbacks, Bool.false_eq_true, if_false, ih]
      simp only [List.takeWhile_cons, Bool.not_false, if_true, List.length_cons]
      rw [hmin]
      rfl

/-- C5 counterexample: two listeners are registered, the first raises; one
successfully merged frame invokes only listener 0 — the exception
propagates into `_recv_loop`'s handler and listener 1, registered after the
raiser, is never invoked for that merge. -/
theorem listener_exception_suppresses_later :
    (ingest (initState "h") none [] 5).exn = none
    ∧ (recvStep [true, false] ⟨initState "h", none⟩ (some []) 5).2 = [0]
    ∧ 1 ∉ (recvStep [true, false] ⟨initState "h", none⟩ (some []) 5).2 := by
  refine ⟨rfl, rfl, by decide⟩

/-- C5 amended: after a successful merge the listeners run in registration
order up to and including the first raising listener, each at most once
(all of them exactly once when none raises); the rest of that merge's
listeners are skipped, but the exception is absorbed by the receive loop's
handler, so every inbound frame is still processed. -/
theorem listener_invocation_amended :
    (∀ (i : Nat) (lsn : List Bool),
        (runCallbacks i lsn).1 =
          List.range' i (min lsn.length ((lsn.takeWhile (fun b => !b)).length + 1)))
    ∧ (∀ (lsn : List Bool) (c : LoopState) (msgs : List (Option Msg)) (now : Int),
        ((recvAll lsn c msgs now).2).length = msgs.length) := by
  refine ⟨runCallbacks_fst, ?_⟩
  intro lsn c msgs now
  induction msgs generalizing c with
  | nil => rfl
  | cons m rest ih => simp [recvAll, ih]

theorem probeAttempts_fst_le (arrival : Option Nat) :
    ∀ (fuel t : Nat), (probeAttempts arrival fuel t).1 ≤ fuel := by
  intro fuel
  induction fuel with
  | zero => intro t; exact Nat.le_refl 0
  | succ f ih =>
    intro t
    simp only [probeAttempts]
    split
    · exact Nat.zero_le _
    · split
      · exact Nat.succ_le_succ (Nat.zero_le f)
      · exact Nat.succ_le_succ (ih _)

/-- C7: the probe issues at most 5 `boxsInfo` requests, with up to ten
1-second polls after each; when the payload never arrives the status ends
`False` (UNSUPPORTED) and no poller is spawned; when the payload is
ingested at any instant inside the probe window the status is flipped to
`True` by `_ingest` and the poller is spawned, with the probe issuing no
further requests than needed; each poller tick waits 20 seconds and
re-requests `boxsInfo`; and (re)entering the connected state resets
`cfs_supported` to unknown. -/
theorem cfs_probe_detection :
    (∀ arrival : Option Nat, (probeSim arrival).requests ≤ 5)
    ∧ probeSim none = { requests := 5, supported := some false, pollerStarted := false }
    ∧ (∀ s : Nat, s < 51 →
        (probeSim (some s)).supported = some true
          ∧ (probeSim (some s)).pollerStarted = true
          ∧ (probeSim (some s)).requests ≤ 5)
    ∧ (∀ c : LoopState, (onConnected c).cfs = none ∧ (onConnected c).st.online = true)
    ∧ (∀ q : List Envelope, cfsPollerTick q =
        (20, q ++ [{ method := "get", params := [("boxsInfo", PyVal.vInt 1)] }])) := by
  refine ⟨fun a => probeAttempts_fst_le a 5 0, rfl, by decide, fun c => ⟨rfl, rfl⟩, fun q => rfl⟩

/-- C7 witness: a payload ingested at instant 25 (during the third attempt)
yields DETECTED and a spawned poller, within the request bound. -/
theorem cfs_probe_detection_witness :
    (probeSim (some 25)).supported = some true
    ∧ (probeSim (some 25)).pollerStarted = true
    ∧ (probeSim (some 25)).requests ≤ 5 :=
  cfs_probe_detection.2.2.1 25 (by decide)

theorem ingest_frame_printLeftTime (st : DeviceState) (cfs : Option Bool) (r : Msg) (now : Int)
    (h : lookup r "printLeftTime" = none) :
    (ingest st cfs r now).st.printLeftTime = st.printLeftTime := by
  simp only [ingest]
  repeat' split
  all_goals simp_all [restIngest, ingestHead, applyPLT_absent, pltFail, h]

theorem ingestSeq_frame_printLeftTime (now : Int) :
    ∀ (msgs : List Msg) (c : LoopState),
      (∀ m ∈ msgs, lookup m "printLeftTime" = none) →
      (ingestSeq c msgs now).st.printLeftTime = c.st.printLeftTime := by
  intro msgs
  induction msgs with
  | nil => intro c _; rfl
  | cons m rest ih =>
    intro c h
    have h1 := h m (List.mem_cons_self m rest)
    have h2 : ∀ m2 ∈ rest, lookup m2 "printLeftTime" = none :=
      fun m2 hm => h m2 (List.mem_cons_of_mem m hm)
    show (ingestSeq ⟨(ingest c.st c.cfs m now).st, (ingest c.st c.cfs m now).cfs⟩ rest now).st.printLeftTime = c.st.printLeftTime
    rw [ih _ h2]
    exact ingest_frame_printLeftTime c.st c.cfs m now h1

/-- C3: fields whose message key is absent keep their prior value across a
merge — every mapped scalar, every temperature leaf, every control key, the
error object, the CFS object, and every `data` entry — and, by iteration,
across any sequence of partial merges. -/
theorem merge_frame_property (st : DeviceState) (cfs : Option Bool) (r : Msg) (now : Int) :
    (lookup r "printProgress" = none → (ingest st cfs r now).st.printProgress = st.printProgress)
    ∧ (lookup r "printLeftTime" = none → (ingest st cfs r now).st.printLeftTime = st.printLeftTime)
    ∧ (lookup r "printJobTime" = none → (ingest st cfs r now).st.printJobTime = st.printJobTime)
    ∧ (lookup r "printFileName" = none → (ingest st cfs r now).st.printFileName = st.printFileName)
    ∧ (lookup r "deviceState" = none → (ingest st cfs r now).st.deviceState = st.deviceState)
    ∧ (lookup r "state" = none → (ingest st cfs r now).st.state = st.state)
    ∧ (lookup r "nozzleTemp" = none →
        (ingest st cfs r now).st.temperature.nozzle.value = st.temperature.nozzle.value)
    ∧ (lookup r "targetNozzleTemp" = none →
        (ingest st cfs r now).st.temperature.nozzle.target = st.temperature.nozzle.target)
    ∧ (lookup r "maxNozzleTemp" = none →
        (ingest st cfs r now).st.temperature.nozzle.max = st.temperature.nozzle.max)
    ∧ (lookup r "bedTemp0" = none →
        (ingest st cfs r now).st.temperature.bed.value = st.temperature.bed.value)
    ∧ (lookup r "targetBedTemp0" = none →
        (ingest st cfs r now).st.temperature.bed.target = st.temperature.bed.target)
    ∧ (lookup r "maxBedTemp" = none →
        (ingest st cfs r now).st.temperature.bed.max = st.temperature.bed.max)
    ∧ (lookup r "boxTemp" = none →
        (ingest st cfs r now).st.temperature.box.value = st.temperature.box.value)
    ∧ (ingest st cfs r now).st.temperature.box.target = st.temperature.box.target
    ∧ (ingest st cfs r now).st.temperature.box.max = st.temperature.box.max
    ∧ (lookup r "curFeedratePct" = none →
        (ingest st cfs r now).st.ctrol.curFeedratePct = st.ctrol.curFeedratePct)
    ∧ (lookup r "fan" = none → (ingest st cfs r now).st.ctrol.fan = st.ctrol.fan)
    ∧ (lookup r "modelFanPct" = none →
        (ingest st cfs r now).st.ctrol.modelFanPct = st.ctrol.modelFanPct)
    ∧ (lookup r "auxiliaryFanPct" = none →
        (ingest st cfs r now).st.ctrol.auxiliaryFanPct = st.ctrol.auxiliaryFanPct)
    ∧ (lookup r "caseFanPct" = none →
        (ingest st cfs r now).st.ctrol.caseFanPct = st.ctrol.caseFanPct)
    ∧ (lookup r "lightSw" = none → (ingest st cfs r now).st.ctrol.lightSw = st.ctrol.lightSw)
    ∧ (lookup r "fanAuxiliary" = none →
        (ingest st cfs r now).st.ctrol.fanAuxiliary = st.ctrol.fanAuxiliary)
    ∧ (lookup r "fanCase" = none → (ingest st cfs r now).st.ctrol.fanCase = st.ctrol.fanCase)
    ∧ (lookup r "err" = none → (ingest st cfs r now).st.err = st.err)
    ∧ (lookup r "boxsInfo" = none →
        (ingest st cfs r now).st.boxsInfo = st.boxsInfo
          ∧ (ingest st cfs r now).st.boxInfoTimeStamp = st.boxInfoTimeStamp)
    ∧ (∀ k : String, lookup r k = none →
        lookup ((ingest st cfs r now).st.data) k = lookup st.data k)
    ∧ (∀ msgs : List Msg, (∀ m ∈ msgs, lookup m "printLeftTime" = none) →
        (ingestSeq ⟨st, cfs⟩ msgs now).st.printLeftTime = st.printLeftTime) := by
  refine ⟨?_, fun h => ingest_frame_printLeftTime st cfs r now h,
    ?_, ?_, ?_, ?_, ?_, ?_, ?_, ?_, ?_, ?_, ?_, ?_, ?_, ?_, ?_, ?_, ?_, ?_, ?_, ?_, ?_, ?_, ?_,
    ?_, fun msgs h => ingestSeq_frame_printLeftTime now msgs ⟨st, cfs⟩ h⟩
  case _ =>
    intro h
    simp only [ingest]
    repeat' split
    all_goals simp_all [restIngest, ingestHead, applyPP_absent, ppFail, h]
  case _ =>
    intro h
    simp only [ingest]
    repeat' split
    all_goals simp_all [restIngest, ingestHead, applyPJT_absent, pjtFail, h]
  all_goals
    first
    | (intro k h
       simp only [ingest]
       repeat' split
       all_goals simp [restIngest, ingestHead, lookup_foldl_dictSet k r h]
       done)
    | (intro h
       simp only [ingest]
       repeat' split
       all_goals simp [restIngest, ingestHead, h]
       done)
    | (simp only [ingest]
       repeat' split
       all_goals simp [restIngest, ingestHead]
       done)

/-- C3 witness: at the empty message, concrete fields of the default state
are preserved by the merge, and a two-message sequence without
`printLeftTime` keys preserves `printLeftTime`. -/
theorem merge_frame_property_witness :
    (ingest (initState "h") none [] 5).st.printProgress = (initState "h").printProgress
    ∧ (ingest (initState "h") none [] 5).st.ctrol.fan = (initState "h").ctrol.fan
    ∧ (ingest (initState "h") none [] 5).st.err = (initState "h").err
    ∧ (ingest (initState "h") none [] 5).st.boxsInfo = (initState "h").boxsInfo
    ∧ lookup ((ingest (initState "h") none [] 5).st.data) "fan"
        = lookup ((initState "h").data) "fan"
    ∧ (ingestSeq ⟨initState "h", none⟩ [[("fan", PyVal.vInt 2)], []] 5).st.printLeftTime
        = (initState "h").printLeftTime := by
  have t := merge_frame_property (initState "h") none [] 5
  refine ⟨t.1 rfl, t.2.2.2.2.2.2.2.2.2.2.2.2.2.2.2.2.1 rfl, ?_, ?_, ?_, ?_⟩
  · exact t.2.2.2.2.2.2.2.2.2.2.2.2.2.2.2.2.2.2.2.2.2.2.2.1 rfl
  · exact (t.2.2.2.2.2.2.2.2.2.2.2.2.2.2.2.2.2.2.2.2.2.2.2.2.1 rfl).1
  · exact t.2.2.2.2.2.2.2.2.2.2.2.2.2.2.2.2.2.2.2.2.2.2.2.2.2.1 "fan" rfl
  · exact t.2.2.2.2.2.2.2.2.2.2.2.2.2.2.2.2.2.2.2.2.2.2.2.2.2.2
      [[("fan", PyVal.vInt 2)], []] (by intro m hm; fin_cases hm <;> rfl)

/-- C1 counterexample: on `{"boxsInfo": 3, "printProgress": "abc",
"printLeftTime": 7}` the merge raises at the `printProgress` conversion,
yet the state afterwards is not the pre-merge state: `timeStamp` and
`boxsInfo` already hold the new values while `printLeftTime` still holds
the old one — a snapshot taken after the failed merge mixes old and new
values touched by the same merge. -/
theorem merge_not_atomic_on_failure :
    (ingest (initState "h") none
        [("boxsInfo", PyVal.vInt 3), ("printProgress", PyVal.vStr "abc"),
          ("printLeftTime", PyVal.vInt 7)] 5).exn = some ()
    ∧ (ingest (initState "h") none
        [("boxsInfo", PyVal.vInt 3), ("printProgress", PyVal.vStr "abc"),
          ("printLeftTime", PyVal.vInt 7)] 5).st.timeStamp = 5
    ∧ (initState "h").timeStamp = -1
    ∧ (ingest (initState "h") none
        [("boxsInfo", PyVal.vInt 3), ("printProgress", PyVal.vStr "abc"),
          ("printLeftTime", PyVal.vInt 7)] 5).st.boxsInfo = PyVal.vInt 3
    ∧ (ingest (initState "h") none
        [("boxsInfo", PyVal.vInt 3), ("printProgress", PyVal.vStr "abc"),
          ("printLeftTime", PyVal.vInt 7)] 5).st.printLeftTime = 0
    ∧ (ingest (initState "h") none
        [("boxsInfo", PyVal.vInt 3), ("printProgress", PyVal.vStr "abc"),
          ("printLeftTime", PyVal.vInt 7)] 5).st ≠ initState "h" := by
  refine ⟨rfl, rfl, rfl, rfl, rfl, fun hEq => ?_⟩
  exact absurd (congrArg DeviceState.timeStamp hEq) (by decide)

/-- C1 amended: the merge is atomic only when it succeeds.  It fails
exactly when one of its three bare `int()` conversions fails —
`int(r["printProgress"])`, or the `int()` around `_num`'s result for
`printLeftTime` / `printJobTime` (for instance when `_num` returns
`float("inf")` or `float("nan")`) — and then the post-state is not the
pre-merge state but the pre-merge state with precisely the writes that
precede the failing conversion applied, in source order: `timeStamp`
(always set to the ingestion instant, even on failure) and the
`boxsInfo` / `boxInfoTimeStamp` pair when present, then `printProgress`,
then `printLeftTime`; every later field is untouched. -/
theorem merge_failure_partial_writes (st : DeviceState) (cfs : Option Bool) (r : Msg) (now : Int) :
    ((ingest st cfs r now).exn.isSome = true ↔ (ppFail r || pltFail r || pjtFail r) = true)
    ∧ ((ingest st cfs r now).exn.isSome = true →
        (ingest st cfs r now).st =
          (if ppFail r then ingestHead st now r
           else if pltFail r then applyPP (ingestHead st now r) r
           else applyPLT (applyPP (ingestHead st now r) r) r))
    ∧ (ingest st cfs r now).st.timeStamp = now := by
  by_cases h1 : ppFail r <;> by_cases h2 : pltFail r <;> by_cases h3 : pjtFail r <;>
    simp [ingest, h1, h2, h3, restIngest, ingestHead]

/-- C1 amended witness: on a message whose `printProgress` converts but
whose `printLeftTime` is the string "inf", the merge fails at the
`printLeftTime` conversion and the post-state carries the head writes AND
the `printProgress` write — not the pre-merge state, and more than the
head writes alone. -/
theorem merge_failure_partial_writes_witness :
    (ingest (initState "h") none
        [("printProgress", PyVal.vInt 3), ("printLeftTime", PyVal.vStr "inf")] 5).st
      = applyPP
          (ingestHead (initState "h") 5
            [("printProgress", PyVal.vInt 3), ("printLeftTime", PyVal.vStr "inf")])
          [("printProgress", PyVal.vInt 3), ("printLeftTime", PyVal.vStr "inf")] :=
  (merge_failure_partial_writes (initState "h") none
    [("printProgress", PyVal.vInt 3), ("printLeftTime", PyVal.vStr "inf")] 5).2.1 rfl

/-- C2 counterexample: `"3.5"` converts as a float, so the claimed
float-then-int-then-default chain would accept it, yet the merge raises on
`{"printProgress": "3.5"}` — `printProgress` is converted with a bare
`int()`, not with `_num`; and even a field that does go through `_num`
makes the merge raise: `float("inf")` succeeds, `_num` returns it, and the
bare `int()` around it raises on `{"printLeftTime": "inf"}`. -/
theorem printProgress_bare_int_raises :
    (pyFloatConv (PyVal.vStr "3.5")).isSome = true
    ∧ (ingest (initState "h") none [("printProgress", PyVal.vStr "3.5")] 5).exn = some ()
    ∧ (pyFloatConv (PyVal.vStr "inf")).isSome = true
    ∧ (ingest (initState "h") none [("printLeftTime", PyVal.vStr "inf")] 5).exn = some () :=
  ⟨rfl, rfl, rfl, rfl⟩

/-- C2 amended: `_num` itself is total — it tries `float`, then `int`, then
returns the caller-supplied default — but the merge is not: besides the
bare `int(r["printProgress"])`, the `int()` wrapped around `_num`'s result
for `printLeftTime` and `printJobTime` raises whenever `_num` yields a
non-finite float (e.g. the strings "inf" / "nan", which Python's `float()`
accepts).  The merge returns normally exactly when none of those three
conversions fails. -/
theorem merge_totality_amended (st : DeviceState) (cfs : Option Bool) (r : Msg) (now : Int) :
    ((ingest st cfs r now).exn = none ↔
        ppFail r = false ∧ pltFail r = false ∧ pjtFail r = false)
    ∧ (∀ (x : PyVal) (d : PyNum) (fl : PyFloat), pyFloatConv x = some fl →
        numConv x d = PyNum.f fl)
    ∧ (∀ (x : PyVal) (d : PyNum) (n : Int), pyFloatConv x = none → pyIntConv x = some n →
        numConv x d = PyNum.i n)
    ∧ (∀ (x : PyVal) (d : PyNum), pyFloatConv x = none → pyIntConv x = none →
        numConv x d = d) := by
  refine ⟨?_, ?_, ?_, ?_⟩
  · by_cases h1 : ppFail r <;> by_cases h2 : pltFail r <;> by_cases h3 : pjtFail r <;>
      simp [ingest, h1, h2, h3]
  · intro x d fl h
    simp [numConv, h]
  · intro x d n h1 h2
    simp [numConv, h1, h2]
  · intro x d h1 h2
    simp [numConv, h1, h2]

/-- C2 amended witness: a non-numeric `printLeftTime` does not make the
merge raise — `_num` falls back to the caller-supplied default there. -/
theorem merge_totality_amended_witness :
    (ingest (initState "h") none [("printLeftTime", PyVal.vStr "oops")] 5).exn = none
    ∧ numConv (PyVal.vStr "oops") (PyNum.i 7) = PyNum.i 7 :=
  ⟨(merge_totality_amended (initState "h") none
      [("printLeftTime", PyVal.vStr "oops")] 5).1.mpr ⟨rfl, rfl, rfl⟩,
    (merge_totality_amended (initState "h") none [] 5).2.2.2
      (PyVal.vStr "oops") (PyNum.i 7) rfl rfl⟩

/-- C4 counterexample: the error object is not merged key-by-key — the
message `{"err": {"errcode": 5}}` replaces the whole object, and the
omitted subfields `key` and `errLevel` are gone instead of keeping their
prior values. -/
theorem err_replaced_wholesale :
    lookup ((initState "h").err) "key" = some (PyVal.vInt 0)
    ∧ (ingest (initState "h") none
        [("err", PyVal.vDict [("errcode", PyVal.vInt 5)])] 5).st.err
        = [("errcode", PyVal.vInt 5)]
    ∧ (lookup ((ingest (initState "h") none
        [("err", PyVal.vDict [("errcode", PyVal.vInt 5)])] 5).st.err) "key").isNone = true :=
  ⟨rfl, rfl, rfl⟩

/-- C4 amended: every state field has a defined default before the first
message; `temperature` and `ctrol` are merged leaf-by-leaf (a message
touching one leaf leaves sibling leaves untouched); but the `err` object
is, like `boxsInfo`, replaced wholesale whenever the message carries a dict
under that key. -/
theorem defaults_and_submerge_amended (host : String) (st : DeviceState) (cfs : Option Bool)
    (r : Msg) (now : Int) :
    (initState host).temperature.nozzle
        = { value := PyNum.f (PyFloat.finite 0), target := PyNum.f (PyFloat.finite 0),
            max := PyNum.f (PyFloat.finite 350) }
    ∧ (initState host).temperature.bed
        = { value := PyNum.f (PyFloat.finite 0), target := PyNum.f (PyFloat.finite 0),
            max := PyNum.f (PyFloat.finite 120) }
    ∧ (initState host).temperature.box
        = { value := PyNum.f (PyFloat.finite 0), target := PyNum.f (PyFloat.finite 0),
            max := PyNum.f (PyFloat.finite 60) }
    ∧ (initState host).err
        = [("errcode", PyVal.vInt 0), ("key", PyVal.vInt 0), ("errLevel", PyVal.vInt 0)]
    ∧ (initState host).ctrol.curFeedratePct = PyVal.vInt 100
    ∧ (initState host).ctrol.fanAuxiliary = PyVal.vInt 0
    ∧ (initState host).printProgress = 0
    ∧ (initState host).printFileName = ""
    ∧ (initState host).boxsInfo = PyVal.vNull
    ∧ (∀ v : PyVal,
        (ingest st cfs [("nozzleTemp", v)] now).st.temperature.nozzle.target
            = st.temperature.nozzle.target
          ∧ (ingest st cfs [("nozzleTemp", v)] now).st.temperature.nozzle.max
            = st.temperature.nozzle.max
          ∧ (ingest st cfs [("nozzleTemp", v)] now).st.temperature.bed
            = st.temperature.bed)
    ∧ (∀ v : PyVal,
        (ingest st cfs [("fan", v)] now).st.ctrol.lightSw = st.ctrol.lightSw
          ∧ (ingest st cfs [("fan", v)] now).st.ctrol.caseFanPct = st.ctrol.caseFanPct)
    ∧ (∀ d : Msg, lookup r "err" = some (PyVal.vDict d) →
        (ingest st cfs r now).exn = none → (ingest st cfs r now).st.err = d)
    ∧ (∀ v : PyVal, lookup r "boxsInfo" = some v →
        (ingest st cfs r now).st.boxsInfo = v) := by
  refine ⟨rfl, rfl, rfl, rfl, rfl, rfl, rfl, rfl, rfl,
    fun v => ⟨rfl, rfl, rfl⟩, fun v => ⟨rfl, rfl⟩, ?_, ?_⟩
  · intro d h hexn
    by_cases h1 : ppFail r <;> by_cases h2 : pltFail r <;> by_cases h3 : pjtFail r <;>
      first
        | (simp [ingest, h1, h2, h3] at hexn
           done)
        | simp [ingest, h1, h2, h3, restIngest, h]
  · intro v h
    by_cases h1 : ppFail r <;> by_cases h2 : pltFail r <;> by_cases h3 : pjtFail r <;>
      simp [ingest, h1, h2, h3, restIngest, ingestHead, h]

/-- C4 amended witness: concrete instances — sibling temperature leaves
survive a `nozzleTemp`-only message, a dict `err` replaces the object, and
a present `boxsInfo` is copied wholesale. -/
theorem defaults_and_submerge_amended_witness :
    (ingest (initState "h") none [("nozzleTemp", PyVal.vInt 100)] 5).st.temperature.nozzle.target
        = (initState "h").temperature.nozzle.target
    ∧ (ingest (initState "h") none
        [("err", PyVal.vDict [("k", PyVal.vNull)])] 5).st.err = [("k", PyVal.vNull)]
    ∧ (ingest (initState "h") none [("boxsInfo", PyVal.vInt 9)] 5).st.boxsInfo = PyVal.vInt 9 := by
  refine ⟨(defaults_and_submerge_amended "h" (initState "h") none [] 5).2.2.2.2.2.2.2.2.2.1
      (PyVal.vInt 100) |>.1, ?_, ?_⟩
  · exact (defaults_and_submerge_amended "h" (initState "h") none
      [("err", PyVal.vDict [("k", PyVal.vNull)])] 5).2.2.2.2.2.2.2.2.2.2.2.1
      [("k", PyVal.vNull)] rfl rfl
  · exact (defaults_and_submerge_amended "h" (initState "h") none
      [("boxsInfo", PyVal.vInt 9)] 5).2.2.2.2.2.2.2.2.2.2.2.2 (PyVal.vInt 9) rfl
